import Mathlib

/-!
Shallow embedding of the TerminalTunnel process supervisor
(src/src-tauri/src/lib.rs) and verification of its specification.

The supervisor manages three worker processes (the primary Node server,
the cloudflared tunnel client, and the PTY sidecar helper).  Pure control
flow is translated directly; OS interactions (spawning, killing, emitting
events to the UI, sleeping, probing the health endpoint) are recorded as
an explicit effect trace, and externally determined outcomes (spawn
success, probe results, the tunnel readiness signal) are parameters of an
environment record.
-/

namespace TTunnel

/-- Worker kinds managed by the supervisor: the primary backend server,
the cloudflared tunnel client, and the PTY sidecar helper. -/
inductive WorkerKind
  | server
  | tunnel
  | sidecar
deriving DecidableEq, Repr

/-- Observable actions performed by the supervisor, in program order.
Mirrors the OS/UI calls of lib.rs: `emit` is `app.emit(topic, payload)`,
`spawn` is `Command::spawn`, `clearSlot` is the `Option::take` that
empties a registry slot, `killDescendants` is `pkill -P pid`, `kill` and
`waitExit` are `child.kill()` / `child.wait()`, `probeAttempt` and
`sleep` are the health-check loop's TCP probe and inter-attempt delay,
`pkillByName` is orphan cleanup by process-name pattern, `portCleanup`
is `kill_port_listener`, and `navigate` is the webview redirect. -/
inductive Effect
  | emit (topic payload : String)
  | spawn (kind : WorkerKind) (pid : Nat)
  | clearSlot (kind : WorkerKind)
  | killDescendants (kind : WorkerKind) (pid : Nat)
  | kill (kind : WorkerKind) (pid : Nat)
  | waitExit (kind : WorkerKind) (pid : Nat)
  | probeAttempt (attempt : Nat)
  | sleep (ms : Nat)
  | pkillByName (pat : String)
  | portCleanup (port : Nat)
  | navigate (url : String)
deriving DecidableEq, Repr

/-- The managed state of lib.rs (`struct AppState`): one optional child
process per worker kind (identified here by its pid) plus the discovered
tunnel URL. -/
structure AppState where
  server_process : Option Nat
  tunnel_process : Option Nat
  sidecar_process : Option Nat
  tunnel_url : Option String
deriving DecidableEq, Repr

/-- The `Default` impl of `AppState`: every slot empty, no URL. -/
def initialAppState : AppState :=
  { server_process := none, tunnel_process := none
    sidecar_process := none, tunnel_url := none }

/-- Externally determined outcomes that the Rust code obtains from the
OS and the network, gathered into one record so the supervisor's control
flow can be expressed as a pure function.  `server_spawn`,
`sidecar_spawn` and `tunnel_spawn` are the combined outcome of path
resolution plus `Command::spawn` for each kind (`Except.error` covers
both a missing binary and an OS spawn failure, as in the Rust code both
return early with an error message).  `health` gives the verdict of the
TCP+HTTP probe for each attempt number.  `ready_in_time` states whether
the log readers' one-shot readiness message arrives on the channel
within the 40 s `recv_timeout`; when it does, the sending reader has
already stored `matched_url` into the shared URL state (the store
happens before the send in the reader thread).  `late_url` is the URL a
reader stores after the timeout has already expired, if any: the reader
threads are not cancelled, so a line still sitting in the pipe buffer
can match after `recv_timeout` returned. -/
structure Env where
  is_production : Bool
  external_server : Bool
  server_spawn : Except String Nat
  sidecar_spawn : Except String Nat
  tunnel_spawn : Except String Nat
  health : Nat → Bool
  ready_in_time : Bool
  matched_url : String
  late_url : Option String

/-- Slot of a given kind, as read by the per-kind mutexes of `AppState`. -/
def slotOf (k : WorkerKind) (s : AppState) : Option Nat :=
  match k with
  | WorkerKind.server => s.server_process
  | WorkerKind.tunnel => s.tunnel_process
  | WorkerKind.sidecar => s.sidecar_process

/-! ## HealthProber: `wait_for_server_health` -/

/-- Loop body of `wait_for_server_health` (lib.rs lines 113-153).  The
Rust code iterates `attempt` over `1..=max_attempts`; each iteration
performs one probe (`TcpStream::connect_timeout` + HTTP GET; its verdict
is `probe attempt`, true exactly when the response carries `200 OK` and
the `status` body marker), returns `true` immediately on a ready
verdict, and sleeps `delay` only when `attempt < max_attempts`.  The
loop is translated with an explicit count of remaining iterations,
`remaining = max_attempts - attempt + 1`: `remaining = 1` is the last
attempt (probe, and no sleep afterwards), `remaining = 0` a zero-attempt
budget whose loop body never runs. -/
def healthGo (probe : Nat → Bool) (delay : Nat) :
    Nat → Nat → Bool × List Effect
  | _, 0 => (false, [])
  | attempt, 1 =>
    if probe attempt then (true, [Effect.probeAttempt attempt])
    else (false, [Effect.probeAttempt attempt])
  | attempt, r + 2 =>
    if probe attempt then (true, [Effect.probeAttempt attempt])
    else
      let rest := healthGo probe delay (attempt + 1) (r + 1)
      (rest.1, Effect.probeAttempt attempt :: Effect.sleep delay :: rest.2)

/-- `wait_for_server_health(max_attempts, delay_ms)`: run the probe loop
from attempt 1 with `max_attempts` iterations remaining. -/
def wait_for_server_health (probe : Nat → Bool) (maxA delay : Nat) :
    Bool × List Effect :=
  healthGo probe delay 1 maxA

/-- First attempt, starting at `attempt` with `remaining` iterations
left, whose probe succeeds — or the last attempt when none succeeds:
the attempt at which the health loop stops probing. -/
def stopGo (probe : Nat → Bool) : Nat → Nat → Nat
  | attempt, 0 => attempt
  | attempt, 1 => attempt
  | attempt, r + 2 =>
    if probe attempt then attempt else stopGo probe (attempt + 1) (r + 1)

/-- Spec-side characterization of the health loop's effect trace: the
`n + 1` probes for attempts `a, a+1, ..., a+n`, with a sleep of `delay`
strictly between consecutive probes and never after the last one. -/
def traceSeg (delay : Nat) : Nat → Nat → List Effect
  | a, 0 => [Effect.probeAttempt a]
  | a, n + 1 =>
    Effect.probeAttempt a :: Effect.sleep delay :: traceSeg delay (a + 1) n

/-! ## Launcher / registry operations -/

/-- `start_sidecar_internal` (lib.rs lines 495-575): no-op if the
sidecar slot is populated; otherwise resolve the script and spawn
(outcome `env.sidecar_spawn`), installing the child on success.  The
sidecar start emits no status events. -/
def start_sidecar_internal (env : Env) (s : AppState) :
    Except String Unit × AppState × List Effect :=
  match s.sidecar_process with
  | some _ => (Except.ok (), s, [])
  | none =>
    match env.sidecar_spawn with
    | Except.error e => (Except.error e, s, [])
    | Except.ok pid =>
      (Except.ok (), { s with sidecar_process := some pid },
        [Effect.spawn WorkerKind.sidecar pid])

/-- `start_server_internal` (lib.rs lines 340-469): no-op if the server
slot is populated.  Otherwise emit `server-status starting`; in
production first start the PTY sidecar (its failure is only logged);
then resolve paths and spawn (outcome `env.server_spawn`); on success
install the child and emit `server-status running`. -/
def start_server_internal (env : Env) (s : AppState) :
    Except String Unit × AppState × List Effect :=
  match s.server_process with
  | some _ => (Except.ok (), s, [])
  | none =>
    let tr0 : List Effect := [Effect.emit ("server-status") ("starting")]
    let mid : AppState × List Effect :=
      if env.is_production then
        let r := start_sidecar_internal env s
        (r.2.1, r.2.2)
      else (s, [])
    match env.server_spawn with
    | Except.error e => (Except.error e, mid.1, tr0 ++ mid.2)
    | Except.ok pid =>
      (Except.ok (), { mid.1 with server_process := some pid },
        tr0 ++ mid.2 ++
          [Effect.spawn WorkerKind.server pid,
           Effect.emit ("server-status") ("running")])

/-- `start_tunnel_internal` (lib.rs lines 604-734): no-op if the tunnel
slot is populated.  Otherwise emit `tunnel-status starting`, spawn
cloudflared (outcome `env.tunnel_spawn`), then block up to 40 s on the
readers' one-shot readiness channel.  If the signal arrives in time the
sending reader has already stored the discovered URL, and the child is
installed into the slot.  On timeout the child is killed and waited on,
an error status is emitted, an error is returned and the slot stays
empty; a reader may still have stored a late-matched URL
(`env.late_url`), which this path does not clear. -/
def start_tunnel_internal (env : Env) (s : AppState) :
    Except String Unit × AppState × List Effect :=
  match s.tunnel_process with
  | some _ => (Except.ok (), s, [])
  | none =>
    let tr0 : List Effect := [Effect.emit ("tunnel-status") ("starting")]
    match env.tunnel_spawn with
    | Except.error e => (Except.error e, s, tr0)
    | Except.ok pid =>
      let tr1 := tr0 ++ [Effect.spawn WorkerKind.tunnel pid]
      if env.ready_in_time then
        (Except.ok (),
          { s with tunnel_url := some env.matched_url,
                   tunnel_process := some pid },
          tr1)
      else
        let urlAfter : Option String :=
          match env.late_url with
          | some u => some u
          | none => s.tunnel_url
        (Except.error ("cloudflared failed to establish a tunnel"),
          { s with tunnel_url := urlAfter },
          tr1 ++
            [Effect.kill WorkerKind.tunnel pid,
             Effect.waitExit WorkerKind.tunnel pid,
             Effect.emit ("tunnel-status")
               ("error: cloudflared failed to establish a tunnel")])

/-- Dispatcher over the three start functions, for statements quantified
over the worker kind. -/
def start_worker (k : WorkerKind) (env : Env) (s : AppState) :
    Except String Unit × AppState × List Effect :=
  match k with
  | WorkerKind.server => start_server_internal env s
  | WorkerKind.tunnel => start_tunnel_internal env s
  | WorkerKind.sidecar => start_sidecar_internal env s

/-- `stop_sidecar_internal` (lib.rs lines 577-594): take the child out
of the slot (which empties it), then `pkill -P pid`, `kill`, `wait`.
Nothing happens when the slot is already empty. -/
def stop_sidecar_internal (s : AppState) : AppState × List Effect :=
  match s.sidecar_process with
  | none => (s, [])
  | some pid =>
    ({ s with sidecar_process := none },
      [Effect.clearSlot WorkerKind.sidecar,
       Effect.killDescendants WorkerKind.sidecar pid,
       Effect.kill WorkerKind.sidecar pid,
       Effect.waitExit WorkerKind.sidecar pid])

/-- `stop_server_internal` (lib.rs lines 471-493): take the child out of
the server slot, `pkill -P pid`, `kill`, `wait` (skipped when the slot
is empty), then unconditionally run `stop_sidecar_internal`. -/
def stop_server_internal (s : AppState) : AppState × List Effect :=
  let first : AppState × List Effect :=
    match s.server_process with
    | none => (s, [])
    | some pid =>
      ({ s with server_process := none },
        [Effect.clearSlot WorkerKind.server,
         Effect.killDescendants WorkerKind.server pid,
         Effect.kill WorkerKind.server pid,
         Effect.waitExit WorkerKind.server pid])
  let rest := stop_sidecar_internal first.1
  (rest.1, first.2 ++ rest.2)

/-- `stop_tunnel_internal` (lib.rs lines 736-759): take the child out of
the tunnel slot, `pkill -P pid`, `kill`, `wait` (skipped when the slot
is empty), then always clear the discovered URL. -/
def stop_tunnel_internal (s : AppState) : AppState × List Effect :=
  let first : AppState × List Effect :=
    match s.tunnel_process with
    | none => (s, [])
    | some pid =>
      ({ s with tunnel_process := none },
        [Effect.clearSlot WorkerKind.tunnel,
         Effect.killDescendants WorkerKind.tunnel pid,
         Effect.kill WorkerKind.tunnel pid,
         Effect.waitExit WorkerKind.tunnel pid])
  ({ first.1 with tunnel_url := none }, first.2)

/-- The `stop_server` Tauri command (lib.rs lines 172-176): runs
`stop_server_internal` and always returns `Ok(())`. -/
def stop_server_cmd (s : AppState) :
    Except String Unit × AppState × List Effect :=
  (Except.ok (), stop_server_internal s)

/-- The `stop_tunnel` Tauri command (lib.rs lines 183-187): runs
`stop_tunnel_internal` and always returns `Ok(())`. -/
def stop_tunnel_cmd (s : AppState) :
    Except String Unit × AppState × List Effect :=
  (Except.ok (), stop_tunnel_internal s)

/-- The `restart_server` Tauri command (lib.rs lines 166-170):
`stop_server_internal` followed by `start_server_internal`. -/
def restart_server (env : Env) (s : AppState) :
    Except String Unit × AppState × List Effect :=
  let st := stop_server_internal s
  let r := start_server_internal env st.1
  (r.1, r.2.1, st.2 ++ r.2.2)

/-- Kinds of the direct-child kill calls in a trace, in order. -/
def killKinds (tr : List Effect) : List WorkerKind :=
  tr.filterMap fun e =>
    match e with
    | Effect.kill k _ => some k
    | _ => none

/-- Whether a trace attempts a tunnel start: it contains the cloudflared
spawn or the `tunnel-status starting` emit that immediately precedes it. -/
def tunnelAttempted (tr : List Effect) : Bool :=
  tr.any fun e =>
    match e with
    | Effect.spawn WorkerKind.tunnel _ => true
    | Effect.emit t p => t == "tunnel-status" && p == "starting"
    | _ => false

/-- Whether a trace contains a health-check probe. -/
def healthProbed (tr : List Effect) : Bool :=
  tr.any fun e =>
    match e with
    | Effect.probeAttempt _ => true
    | _ => false

/-! ## Orchestrator: the initialization thread of `run` -/

/-- Stages of the initialization thread after the primary server is up
(or external): health wait with 10 attempts x 500 ms, degraded-mode
status report when not ready, webview navigation, then the tunnel start
gated on the health verdict (lib.rs lines 932-972). -/
def initAfterServer (env : Env) (s : AppState) (tr : List Effect) :
    AppState × List Effect :=
  let hc := wait_for_server_health env.health 10 500
  let tr1 := tr ++ hc.2
  let tr2 :=
    if hc.1 then tr1
    else tr1 ++ [Effect.emit ("server-status") ("error: Server failed to start")]
  let tr3 :=
    if env.is_production = false then
      tr2 ++ [Effect.navigate ("http://127.0.0.1:3456")]
    else if hc.1 then tr2 ++ [Effect.navigate ("http://localhost:3456")]
    else tr2
  if hc.1 then
    let r := start_tunnel_internal env s
    match r.1 with
    | Except.ok _ => (r.2.1, tr3 ++ r.2.2)
    | Except.error e =>
      (r.2.1, tr3 ++ r.2.2 ++ [Effect.emit ("tunnel-status") (("error: ") ++ e)])
  else
    (s, tr3 ++ [Effect.emit ("tunnel-status") ("error: Server not ready")])

/-- The background initialization thread spawned in `run`'s setup
(lib.rs lines 886-973): orphan cleanup (pkill cloudflared; in
development also pkill the dev server and free port 3457; then a 500 ms
pause), a further 500 ms delay, the primary server start (skipped when
`MT_EXTERNAL_SERVER=1`; on error the thread emits `server-status
error: ...` and returns, so neither the health check nor the tunnel
stage runs), then `initAfterServer`. -/
def initSequence (env : Env) (s : AppState) : AppState × List Effect :=
  let cleanup : List Effect :=
    [Effect.pkillByName ("cloudflared tunnel")] ++
      (if env.is_production then []
       else [Effect.pkillByName ("npm run dev:server"), Effect.portCleanup 3457]) ++
      [Effect.sleep 500]
  let tr0 := cleanup ++ [Effect.sleep 500]
  if env.external_server then initAfterServer env s tr0
  else
    let r := start_server_internal env s
    match r.1 with
    | Except.error e =>
      (r.2.1, tr0 ++ r.2.2 ++ [Effect.emit ("server-status") (("error: ") ++ e)])
    | Except.ok _ => initAfterServer env r.2.1 (tr0 ++ r.2.2)

/-! ## LogWatcher: the endpoint-URL pattern and the reader tasks -/

/-- Character class `[a-zA-Z0-9-]` of the cloudflared URL pattern. -/
def isLabelChar (c : Char) : Bool :=
  c.isAlpha || c.isDigit || c == '-'

/-- Length of the maximal leading run of label characters. -/
def labelRun : List Char → Nat
  | [] => 0
  | c :: cs => if isLabelChar c then labelRun cs + 1 else 0

/-- Greedy-with-backtracking choice of the label length: the largest
`k' ≤ k` with `k' ≥ 1` such that `.trycloudflare.com` follows the first
`k'` characters of `rest`. -/
def tryLabel (rest : List Char) : Nat → Option Nat
  | 0 => none
  | k + 1 =>
    if (".trycloudflare.com".data).isPrefixOf (rest.drop (k + 1)) then
      some (k + 1)
    else tryLabel rest k

/-- Attempt to match `https://[a-zA-Z0-9-]+\.trycloudflare\.com` at the
start of `cs`, returning the matched characters. -/
def matchAt (cs : List Char) : Option (List Char) :=
  if ("https://".data).isPrefixOf cs then
    let rest := cs.drop 8
    match tryLabel rest (labelRun rest) with
    | some k =>
      some (("https://".data) ++ rest.take k ++ (".trycloudflare.com".data))
    | none => none
  else none

/-- Leftmost match of the pattern in a character list. -/
def findFrom : List Char → Option (List Char)
  | [] => none
  | c :: cs =>
    match matchAt (c :: cs) with
    | some m => some m
    | none => findFrom cs

/-- `url_regex.find(&line)` for the fixed pattern
`https://[a-zA-Z0-9-]+\.trycloudflare\.com` (lib.rs line 674): the
leftmost match in the line, as a string. -/
def url_regex_find (line : String) : Option String :=
  (findFrom line.data).map fun l => String.mk l

/-- Substring containment, used for the `QuickTunnel` error marker. -/
def hasSubstr (needle : List Char) : List Char → Bool
  | [] => needle.isEmpty
  | c :: rest => needle.isPrefixOf (c :: rest) || hasSubstr needle rest

/-- Events published by a reader task: the `tunnel-url` emit, the
`tunnel-status connected` emit, and the `tunnel-status error: <line>`
emit for lines carrying the QuickTunnel marker. -/
inductive REvent
  | tunnelUrl (u : String)
  | connected
  | statusError (msg : String)
deriving DecidableEq, Repr

/-- Atomic micro-operations of a reader task (the `spawn_reader` closure,
lib.rs lines 676-703), one per distinct access to shared state.
`procLine` is the `found.load` check combined with the thread-local
regex search on one line; on a match it is followed by the URL store
into the shared mutex, the two emits, the `found.store(true)`, and the
channel send, then the QuickTunnel check for the same line. -/
inductive ROp
  | procLine (line : String)
  | setUrl (u : String)
  | emitUrl (u : String)
  | emitConnected
  | setFlag
  | send
  | quickCheck (line : String)
deriving DecidableEq, Repr

/-- State shared between the two reader tasks: the `found` atomic flag,
the tunnel-URL mutex, the published events (in emission order) and the
number of messages sent on the readiness channel. -/
structure Shared where
  found : Bool
  url : Option String
  events : List REvent
  ready : Nat
deriving DecidableEq, Repr

/-- Execute the first pending micro-operation of one task against the
shared state, following the body of the `spawn_reader` closure. -/
def microStep (sh : Shared) (ops : List ROp) : Shared × List ROp :=
  match ops with
  | [] => (sh, [])
  | op :: rest =>
    match op with
    | ROp.procLine line =>
      if sh.found then (sh, ROp.quickCheck line :: rest)
      else
        match url_regex_find line with
        | some u =>
          (sh, ROp.setUrl u :: ROp.emitUrl u :: ROp.emitConnected ::
            ROp.setFlag :: ROp.send :: ROp.quickCheck line :: rest)
        | none => (sh, ROp.quickCheck line :: rest)
    | ROp.setUrl u => ({ sh with url := some u }, rest)
    | ROp.emitUrl u => ({ sh with events := sh.events ++ [REvent.tunnelUrl u] }, rest)
    | ROp.emitConnected => ({ sh with events := sh.events ++ [REvent.connected] }, rest)
    | ROp.setFlag => ({ sh with found := true }, rest)
    | ROp.send => ({ sh with ready := sh.ready + 1 }, rest)
    | ROp.quickCheck line =>
      if hasSubstr ("QuickTunnel".data) line.data then
        ({ sh with events := sh.events ++ [REvent.statusError (("error: ") ++ line)] }, rest)
      else (sh, rest)

/-- Combined state of the two concurrent reader tasks (stdout, stderr). -/
structure RState where
  shared : Shared
  taskA : List ROp
  taskB : List ROp
deriving DecidableEq, Repr

/-- One scheduler step: run one micro-operation of the chosen task
(`true` picks the stdout task). -/
def schedStep (st : RState) (pick : Bool) : RState :=
  if pick then
    let r := microStep st.shared st.taskA
    { st with shared := r.1, taskA := r.2 }
  else
    let r := microStep st.shared st.taskB
    { st with shared := r.1, taskB := r.2 }

/-- Run the two reader tasks under an explicit interleaving. -/
def runSched : List Bool → RState → RState
  | [], st => st
  | p :: ps, st => runSched ps (schedStep st p)

/-- Initial reader state for given stdout and stderr line streams:
flag false, no URL, no events, no readiness message. -/
def initReaders (la lb : List String) : RState :=
  { shared := { found := false, url := none, events := [], ready := 0 },
    taskA := la.map ROp.procLine,
    taskB := lb.map ROp.procLine }

/-- Number of `tunnel-status connected` emits in a reader run. -/
def connectedCount (st : RState) : Nat :=
  st.shared.events.count REvent.connected

/-! ## Concrete inputs used by witnesses and counterexamples -/

/-- A prober that succeeds exactly on the third attempt. -/
def probeOnThird (i : Nat) : Bool := i == 3

/-- A state in which all three workers are live. -/
def sFull : AppState :=
  { server_process := some 11, tunnel_process := some 22,
    sidecar_process := some 33,
    tunnel_url := some ("https://old.trycloudflare.com") }

/-- A state in which only the sidecar is live. -/
def sOnlySidecar : AppState :=
  { server_process := none, tunnel_process := none,
    sidecar_process := some 5, tunnel_url := none }

/-- A production environment in which every spawn succeeds, every probe
passes and the tunnel readiness signal arrives in time. -/
def envProd : Env :=
  { is_production := true, external_server := false,
    server_spawn := Except.ok 101, sidecar_spawn := Except.ok 103,
    tunnel_spawn := Except.ok 102, health := fun _ => true,
    ready_in_time := true,
    matched_url := "https://new.trycloudflare.com", late_url := none }

/-- Like `envProd`, but the tunnel readiness signal does not arrive
within the timeout and a reader matches a line only afterwards. -/
def envLate : Env :=
  { envProd with
      ready_in_time := false,
      late_url := some ("https://late.trycloudflare.com") }

/-- Like `envProd`, but the server path resolution fails. -/
def envFailServer : Env :=
  { envProd with
      server_spawn := Except.error ("Could not find project root directory") }

/-- An external-server environment whose health probes all fail. -/
def envNoHealth : Env :=
  { envProd with
      external_server := true,
      health := fun _ => false }

/-- Stdout stream carrying one line that matches the endpoint pattern. -/
def raceStdout : List String := ["INF https://aaaa.trycloudflare.com"]

/-- Stderr stream carrying one line that matches the endpoint pattern. -/
def raceStderr : List String := ["INF https://bbbb.trycloudflare.com"]

/-- The racy interleaving: both tasks execute their flag check (the
`found.load`) before either runs the rest of its match handling. -/
def raceSchedule : List Bool :=
  [true, false] ++ List.replicate 6 true ++ List.replicate 6 false

/-- The specification's sample tunnel log line. -/
def sampleLine : String :=
  "2024 INF tunnel connected https://foo-bar.example-tunnel.com"

/-- The sample tunnel log line with the actual fixed tunnel domain. -/
def sampleLineReal : String :=
  "2024 INF tunnel connected https://foo-bar.trycloudflare.com"

/-! ## Helper lemmas about the health loop -/

/-- The stopping attempt is at least the starting attempt. -/
theorem stopGo_ge (probe : Nat → Bool) :
    ∀ (r a : Nat), a ≤ stopGo probe a r
  | 0, a => Nat.le_refl a
  | 1, a => Nat.le_refl a
  | r + 2, a => by
    by_cases hp : probe a
    · simp [stopGo, hp]
    · have h := stopGo_ge probe (r + 1) (a + 1)
      simp only [stopGo, hp]
      simp only [Bool.false_eq_true, if_false]
      omega

/-- The stopping attempt stays within the attempt budget. -/
theorem stopGo_le (probe : Nat → Bool) :
    ∀ (r a : Nat), 1 ≤ r → stopGo probe a r ≤ a + r - 1
  | 0, a, h => absurd h (by omega)
  | 1, a, _ => by simp [stopGo]
  | r + 2, a, _ => by
    by_cases hp : probe a
    · simp only [stopGo, hp, if_true]
      omega
    · have h := stopGo_le probe (r + 1) (a + 1) (by omega)
      simp only [stopGo, hp]
      simp only [Bool.false_eq_true, if_false]
      omega

/-- Every attempt strictly before the stopping attempt fails its probe. -/
theorem stopGo_not_before (probe : Nat → Bool) :
    ∀ (r a : Nat), ∀ j, a ≤ j → j < stopGo probe a r → probe j = false
  | 0, a, j, haj, hj => by
    simp only [stopGo] at hj
    exact absurd hj (by omega)
  | 1, a, j, haj, hj => by
    simp only [stopGo] at hj
    exact absurd hj (by omega)
  | r + 2, a, j, haj, hj => by
    by_cases hp : probe a
    · simp [stopGo, hp] at hj
      exact absurd hj (by omega)
    · simp only [stopGo, hp, Bool.false_eq_true, if_false] at hj
      rcases Nat.eq_or_lt_of_le haj with he | he
      · subst he
        exact Bool.not_eq_true _ |>.mp hp
      · exact stopGo_not_before probe (r + 1) (a + 1) j (by omega) hj

/-- When some attempt in range succeeds, the probe at the stopping
attempt succeeds. -/
theorem stopGo_hit (probe : Nat → Bool) :
    ∀ (r a : Nat), 1 ≤ r →
      (∃ i, a ≤ i ∧ i ≤ a + r - 1 ∧ probe i = true) →
      probe (stopGo probe a r) = true
  | 0, a, h, _ => absurd h (by omega)
  | 1, a, _, hex => by
    rcases hex with ⟨i, h1, h2, h3⟩
    have : i = a := by omega
    simp only [stopGo]
    exact this ▸ h3
  | r + 2, a, _, hex => by
    by_cases hp : probe a
    · simp [stopGo, hp]
    · simp only [stopGo, hp, Bool.false_eq_true, if_false]
      apply stopGo_hit probe (r + 1) (a + 1) (by omega)
      rcases hex with ⟨i, h1, h2, h3⟩
      rcases Nat.eq_or_lt_of_le h1 with he | he
      · exact absurd (he ▸ h3) hp
      · exact ⟨i, by omega, by omega, h3⟩

/-- Full characterization of the health loop from any starting attempt:
the boolean result detects a successful probe among the remaining
attempts, and the effect trace is the probe/sleep alternation up to the
stopping attempt. -/
theorem healthGo_spec (probe : Nat → Bool) (delay : Nat) :
    ∀ (r a : Nat), 1 ≤ r →
      (((healthGo probe delay a r).1 = true) ↔
        ∃ i, a ≤ i ∧ i ≤ a + r - 1 ∧ probe i = true)
      ∧ (healthGo probe delay a r).2 =
          traceSeg delay a (stopGo probe a r - a)
  | 0, a, h => absurd h (by omega)
  | 1, a, _ => by
    by_cases hp : probe a
    · simp only [healthGo, hp, if_true]
      constructor
      · constructor
        · intro _
          exact ⟨a, Nat.le_refl a, by omega, hp⟩
        · intro _
          trivial
      · simp [stopGo, traceSeg]
    · simp only [healthGo, hp, Bool.false_eq_true, if_false]
      constructor
      · constructor
        · intro h
          simp at h
        · intro ⟨i, h1, h2, h3⟩
          have : i = a := by omega
          exact absurd (this ▸ h3) hp
      · simp [stopGo, traceSeg]
  | r + 2, a, _ => by
    by_cases hp : probe a
    · simp only [healthGo, hp, if_true]
      constructor
      · constructor
        · intro _
          exact ⟨a, Nat.le_refl a, by omega, hp⟩
        · intro _
          trivial
      · simp [stopGo, hp, traceSeg]
    · have IH := healthGo_spec probe delay (r + 1) (a + 1) (by omega)
      have hK := stopGo_ge probe (r + 1) (a + 1)
      simp only [healthGo, hp, Bool.false_eq_true, if_false]
      constructor
      · constructor
        · intro h
          rcases IH.1.mp h with ⟨i, h1, h2, h3⟩
          exact ⟨i, by omega, by omega, h3⟩
        · intro hex
          apply IH.1.mpr
          rcases hex with ⟨i, h1, h2, h3⟩
          rcases Nat.eq_or_lt_of_le h1 with he | he
          · exact absurd (he ▸ h3) hp
          · exact ⟨i, by omega, by omega, h3⟩
      · simp only [stopGo, hp, Bool.false_eq_true, if_false]
        have hsub : stopGo probe (a + 1) (r + 1) - a =
            (stopGo probe (a + 1) (r + 1) - (a + 1)) + 1 := by omega
        rw [hsub, traceSeg]
        simp [IH.2]

/-- C2: for every prober and every attempt budget of at least one,
`wait_for_server_health(max_attempts, delay)` returns true iff at least
one of the first `max_attempts` probes (numbered 1..max_attempts)
succeeds — true on the first ready verdict, false after exhaustion.
Writing `k` for the first successful attempt (or `max_attempts` when
none succeeds), the effect trace is exactly the probes `1, ..., k` with
a sleep of `delay` strictly between consecutive probes and never after
the last one — the loop returns at the first ready verdict without
further attempts, and every attempt before `k` failed its probe. -/
theorem wait_for_server_health_spec (probe : Nat → Bool) (maxA delay : Nat)
    (h : 1 ≤ maxA) :
    (((wait_for_server_health probe maxA delay).1 = true) ↔
      ∃ i, 1 ≤ i ∧ i ≤ maxA ∧ probe i = true)
    ∧ (wait_for_server_health probe maxA delay).2 =
        traceSeg delay 1 (stopGo probe 1 maxA - 1)
    ∧ (∀ j, 1 ≤ j → j < stopGo probe 1 maxA → probe j = false)
    ∧ ((∃ i, 1 ≤ i ∧ i ≤ maxA ∧ probe i = true) →
        probe (stopGo probe 1 maxA) = true)
    ∧ 1 ≤ stopGo probe 1 maxA ∧ stopGo probe 1 maxA ≤ maxA := by
  have main := healthGo_spec probe delay maxA 1 h
  have hb : 1 + maxA - 1 = maxA := by omega
  rw [hb] at main
  refine ⟨main.1, main.2, ?_, ?_, ?_, ?_⟩
  · intro j h1 h2
    exact stopGo_not_before probe maxA 1 j h1 h2
  · intro hex
    have := stopGo_hit probe maxA 1 h
    rw [hb] at this
    exact this hex
  · exact stopGo_ge probe maxA 1
  · have := stopGo_le probe maxA 1 h
    omega

/-- Witness for C2 at the prober that succeeds only on the third of
three attempts: the instantiated specification, plus the concrete
verdicts `wait_ready(3,10) = true` and `wait_ready(2,10) = false`. -/
theorem wait_for_server_health_spec_witness :
    ((((wait_for_server_health probeOnThird 3 10).1 = true) ↔
        ∃ i, 1 ≤ i ∧ i ≤ 3 ∧ probeOnThird i = true)
      ∧ (wait_for_server_health probeOnThird 3 10).2 =
          traceSeg 10 1 (stopGo probeOnThird 1 3 - 1)
      ∧ (∀ j, 1 ≤ j → j < stopGo probeOnThird 1 3 → probeOnThird j = false)
      ∧ ((∃ i, 1 ≤ i ∧ i ≤ 3 ∧ probeOnThird i = true) →
          probeOnThird (stopGo probeOnThird 1 3) = true)
      ∧ 1 ≤ stopGo probeOnThird 1 3 ∧ stopGo probeOnThird 1 3 ≤ 3)
    ∧ (wait_for_server_health probeOnThird 3 10).1 = true
    ∧ (wait_for_server_health probeOnThird 2 10).1 = false :=
  ⟨wait_for_server_health_spec probeOnThird 3 10 (by decide),
    by decide, by decide⟩

/-! ## Start idempotence and the tunnel readiness timeout -/

/-- C3: for every worker kind, a start against a populated slot returns
success immediately, changes no state and performs no effect — in
particular it spawns nothing — so two starts without an intervening stop
yield exactly the one live process installed by the first; moreover
every start that returns success leaves the kind's slot populated. -/
theorem start_worker_idempotent (k : WorkerKind) (env : Env) (s : AppState) :
    ((slotOf k s).isSome = true → start_worker k env s = (Except.ok (), s, []))
    ∧ ((start_worker k env s).1 = Except.ok () →
        (slotOf k (start_worker k env s).2.1).isSome = true) := by
  constructor
  · intro h
    cases k with
    | server =>
      simp only [slotOf] at h
      cases hs : s.server_process with
      | none => rw [hs] at h; simp at h
      | some p => simp [start_worker, start_server_internal, hs]
    | tunnel =>
      simp only [slotOf] at h
      cases hs : s.tunnel_process with
      | none => rw [hs] at h; simp at h
      | some p => simp [start_worker, start_tunnel_internal, hs]
    | sidecar =>
      simp only [slotOf] at h
      cases hs : s.sidecar_process with
      | none => rw [hs] at h; simp at h
      | some p => simp [start_worker, start_sidecar_internal, hs]
  · intro h
    cases k with
    | server =>
      cases hs : s.server_process with
      | some p => simp [start_worker, start_server_internal, hs, slotOf]
      | none =>
        cases hsp : env.server_spawn with
        | error e =>
          simp [start_worker, start_server_internal, hs, hsp] at h
        | ok pid =>
          simp [start_worker, start_server_internal, hs, hsp, slotOf]
    | tunnel =>
      cases hs : s.tunnel_process with
      | some p => simp [start_worker, start_tunnel_internal, hs, slotOf]
      | none =>
        cases hsp : env.tunnel_spawn with
        | error e =>
          simp [start_worker, start_tunnel_internal, hs, hsp] at h
        | ok pid =>
          cases hr : env.ready_in_time with
          | true => simp [start_worker, start_tunnel_internal, hs, hsp, hr, slotOf]
          | false => simp [start_worker, start_tunnel_internal, hs, hsp, hr] at h
    | sidecar =>
      cases hs : s.sidecar_process with
      | some p => simp [start_worker, start_sidecar_internal, hs, slotOf]
      | none =>
        cases hsp : env.sidecar_spawn with
        | error e =>
          simp [start_worker, start_sidecar_internal, hs, hsp] at h
        | ok pid =>
          simp [start_worker, start_sidecar_internal, hs, hsp, slotOf]

/-- Witness for C3: starting the server in the all-live state is a pure
success with no effects, and a successful tunnel start from the empty
state leaves the tunnel slot populated. -/
theorem start_worker_idempotent_witness :
    start_worker WorkerKind.server envProd sFull = (Except.ok (), sFull, [])
    ∧ (slotOf WorkerKind.tunnel
        (start_worker WorkerKind.tunnel envProd initialAppState).2.1).isSome = true :=
  ⟨(start_worker_idempotent WorkerKind.server envProd sFull).1 (by decide),
   (start_worker_idempotent WorkerKind.tunnel envProd initialAppState).2 rfl⟩

/-- C5: when the tunnel slot is empty, cloudflared spawns successfully
and the readiness signal does not arrive within the 40 s timeout, the
tunnel start fails: it returns an error, the spawned process is killed
and then waited on and an error status is emitted (in exactly that order
after the spawn), and the tunnel slot remains empty — the process is
never left running with the start reported successful. -/
theorem tunnel_readiness_timeout_cleanup (env : Env) (s : AppState) (pid : Nat)
    (h1 : s.tunnel_process = none) (h2 : env.tunnel_spawn = Except.ok pid)
    (h3 : env.ready_in_time = false) :
    (start_tunnel_internal env s).1 =
      Except.error ("cloudflared failed to establish a tunnel")
    ∧ (start_tunnel_internal env s).2.1.tunnel_process = none
    ∧ (start_tunnel_internal env s).2.2 =
        [Effect.emit ("tunnel-status") ("starting"),
         Effect.spawn WorkerKind.tunnel pid,
         Effect.kill WorkerKind.tunnel pid,
         Effect.waitExit WorkerKind.tunnel pid,
         Effect.emit ("tunnel-status")
           ("error: cloudflared failed to establish a tunnel")] := by
  simp [start_tunnel_internal, h1, h2, h3]

/-- Witness for C5 in the timeout environment from the empty state. -/
theorem tunnel_readiness_timeout_cleanup_witness :
    (start_tunnel_internal envLate initialAppState).1 =
      Except.error ("cloudflared failed to establish a tunnel")
    ∧ (start_tunnel_internal envLate initialAppState).2.1.tunnel_process = none
    ∧ (start_tunnel_internal envLate initialAppState).2.2 =
        [Effect.emit ("tunnel-status") ("starting"),
         Effect.spawn WorkerKind.tunnel 102,
         Effect.kill WorkerKind.tunnel 102,
         Effect.waitExit WorkerKind.tunnel 102,
         Effect.emit ("tunnel-status")
           ("error: cloudflared failed to establish a tunnel")] :=
  tunnel_readiness_timeout_cleanup envLate initialAppState 102 rfl rfl rfl

/-! ## Stop behaviour -/

/-- C10: stopping the Primary server always also stops the Auxiliary
sidecar: whatever the starting state — the server slot populated or
not — after `stop_server_internal` both the server slot and the sidecar
slot are empty, and when the sidecar was live its process is killed. -/
theorem stop_server_clears_sidecar (s : AppState) :
    (stop_server_internal s).1.server_process = none
    ∧ (stop_server_internal s).1.sidecar_process = none
    ∧ (∀ p, s.sidecar_process = some p →
        Effect.kill WorkerKind.sidecar p ∈ (stop_server_internal s).2) := by
  cases hs : s.server_process <;> cases hc : s.sidecar_process <;>
    simp [stop_server_internal, stop_sidecar_internal, hs, hc]

/-- Witness for C10 in the state where only the sidecar is live. -/
theorem stop_server_clears_sidecar_witness :
    (stop_server_internal sOnlySidecar).1.server_process = none
    ∧ (stop_server_internal sOnlySidecar).1.sidecar_process = none
    ∧ Effect.kill WorkerKind.sidecar 5 ∈ (stop_server_internal sOnlySidecar).2 :=
  ⟨(stop_server_clears_sidecar sOnlySidecar).1,
   (stop_server_clears_sidecar sOnlySidecar).2.1,
   (stop_server_clears_sidecar sOnlySidecar).2.2 5 rfl⟩

/-- C8 counterexample: stopping the Primary while its slot is empty is
not a no-op — in the state where only the sidecar is live, the server
stop kills the sidecar process, records kill effects, and changes the
state by clearing the sidecar slot. -/
theorem stop_server_nonlive_kills_sidecar :
    sOnlySidecar.server_process = none
    ∧ (stop_server_internal sOnlySidecar).2 =
        [Effect.clearSlot WorkerKind.sidecar,
         Effect.killDescendants WorkerKind.sidecar 5,
         Effect.kill WorkerKind.sidecar 5,
         Effect.waitExit WorkerKind.sidecar 5]
    ∧ Effect.kill WorkerKind.sidecar 5 ∈ (stop_server_internal sOnlySidecar).2
    ∧ (stop_server_internal sOnlySidecar).1 ≠ sOnlySidecar := by
  refine ⟨rfl, rfl, ?_, ?_⟩
  · decide
  · decide

/-- C8 (amended): a stop of a non-live kind never errors and never kills
a process of that kind: a tunnel stop on a non-live tunnel only clears
the discovered URL, a sidecar stop on a non-live sidecar is a complete
no-op, and a server stop on a non-live server reduces exactly to the
sidecar stop it unconditionally performs — so it is a no-op on the
server itself but still stops a live sidecar; the stop commands always
return success. -/
theorem stop_nonlive_amended (s : AppState) :
    (s.tunnel_process = none →
      stop_tunnel_internal s = ({ s with tunnel_url := none }, []))
    ∧ (s.sidecar_process = none → stop_sidecar_internal s = (s, []))
    ∧ (s.server_process = none →
      stop_server_internal s = stop_sidecar_internal s)
    ∧ (stop_server_cmd s).1 = Except.ok ()
    ∧ (stop_tunnel_cmd s).1 = Except.ok () := by
  refine ⟨?_, ?_, ?_, rfl, rfl⟩
  · intro h
    simp [stop_tunnel_internal, h]
  · intro h
    simp [stop_sidecar_internal, h]
  · intro h
    cases hc : s.sidecar_process <;>
      simp [stop_server_internal, stop_sidecar_internal, h, hc]

/-- Witness for C8 (amended) at the state where only the sidecar is
live: the tunnel and server clauses instantiated there. -/
theorem stop_nonlive_amended_witness :
    stop_tunnel_internal sOnlySidecar =
      ({ sOnlySidecar with tunnel_url := none }, [])
    ∧ stop_sidecar_internal initialAppState = (initialAppState, [])
    ∧ stop_server_internal sOnlySidecar = stop_sidecar_internal sOnlySidecar
    ∧ (stop_server_cmd sOnlySidecar).1 = Except.ok ()
    ∧ (stop_tunnel_cmd sOnlySidecar).1 = Except.ok () :=
  ⟨(stop_nonlive_amended sOnlySidecar).1 rfl,
   (stop_nonlive_amended initialAppState).2.1 rfl,
   (stop_nonlive_amended sOnlySidecar).2.2.1 rfl,
   (stop_nonlive_amended sOnlySidecar).2.2.2.1,
   (stop_nonlive_amended sOnlySidecar).2.2.2.2⟩

/-! ## Tunnel URL lifecycle -/

/-- C7 counterexample: after a tunnel start that fails the readiness
timeout while a reader matches a line late, the discovered URL is
populated although the tunnel slot is empty — the URL is not populated
only while the Tunnel slot is live. -/
theorem url_populated_without_live_slot :
    (start_tunnel_internal envLate initialAppState).2.1.tunnel_url =
      some ("https://late.trycloudflare.com")
    ∧ (start_tunnel_internal envLate initialAppState).2.1.tunnel_process = none := by
  decide

/-- C7 (amended): the discovered tunnel URL starts empty, is written
only by a reader match during a tunnel start, and is cleared by every
tunnel stop; a successful start stores the matched URL together with
installing the live slot.  It is however not populated only while the
tunnel slot is live: after a start that failed the readiness timeout
with a late reader match it remains populated with the slot empty until
the next tunnel stop. -/
theorem tunnel_url_lifecycle_amended (env : Env) (s : AppState) :
    initialAppState.tunnel_url = none
    ∧ (stop_tunnel_internal s).1.tunnel_url = none
    ∧ (env.ready_in_time = false → env.late_url = none →
        (start_tunnel_internal env s).2.1.tunnel_url = s.tunnel_url)
    ∧ (∀ pid, s.tunnel_process = none → env.tunnel_spawn = Except.ok pid →
        env.ready_in_time = true →
        (start_tunnel_internal env s).2.1.tunnel_url = some env.matched_url
        ∧ (start_tunnel_internal env s).2.1.tunnel_process = some pid) := by
  refine ⟨rfl, ?_, ?_, ?_⟩
  · cases ht : s.tunnel_process <;> simp [stop_tunnel_internal, ht]
  · intro h1 h2
    cases ht : s.tunnel_process with
    | some p => simp [start_tunnel_internal, ht]
    | none =>
      cases hsp : env.tunnel_spawn with
      | error e => simp [start_tunnel_internal, ht, hsp]
      | ok pid => simp [start_tunnel_internal, ht, hsp, h1, h2]
  · intro pid h1 h2 h3
    simp [start_tunnel_internal, h1, h2, h3]

/-- Witness for C7 (amended): the stop clause at the all-live state and
the successful-start clause from the empty state. -/
theorem tunnel_url_lifecycle_amended_witness :
    (stop_tunnel_internal sFull).1.tunnel_url = none
    ∧ (start_tunnel_internal { envProd with ready_in_time := false }
        sFull).2.1.tunnel_url = sFull.tunnel_url
    ∧ ((start_tunnel_internal envProd initialAppState).2.1.tunnel_url =
        some envProd.matched_url
      ∧ (start_tunnel_internal envProd initialAppState).2.1.tunnel_process =
        some 102) :=
  ⟨(tunnel_url_lifecycle_amended envProd sFull).2.1,
   (tunnel_url_lifecycle_amended { envProd with ready_in_time := false }
      sFull).2.2.1 rfl rfl,
   (tunnel_url_lifecycle_amended envProd initialAppState).2.2.2 102 rfl rfl rfl⟩

/-! ## The reader race and the endpoint pattern -/

/-- C1 (evaluation at the failing interleaving): the readiness flag is a
plain atomic load followed by a separate store, not a compare-and-set;
under the interleaving in which both reader tasks execute the flag check
before either stores true — each stream carrying one matching line —
both tasks publish: two connected events are emitted, two readiness
messages are sent, and the URL is stored by both tasks, the second store
overwriting the first.  This contradicts the claimed exactly-once
transition with exactly one Connected event. -/
theorem reader_race_emits_connected_twice :
    connectedCount (runSched raceSchedule (initReaders raceStdout raceStderr)) = 2
    ∧ (runSched raceSchedule (initReaders raceStdout raceStderr)).shared.ready = 2
    ∧ (runSched raceSchedule (initReaders raceStdout raceStderr)).shared.url =
        some ("https://bbbb.trycloudflare.com")
    ∧ (runSched raceSchedule (initReaders raceStdout raceStderr)).shared.events =
        [REvent.tunnelUrl ("https://aaaa.trycloudflare.com"), REvent.connected,
         REvent.tunnelUrl ("https://bbbb.trycloudflare.com"), REvent.connected] := by
  refine ⟨?_, ?_, ?_, ?_⟩ <;> decide

/-- C9 counterexample: the specification's sample log line carries the
domain `example-tunnel.com`, which the fixed pattern
`https://[a-zA-Z0-9-]+\.trycloudflare\.com` does not match — the search
on that line yields no match, and a reader task processing it leaves the
discovered URL empty. -/
theorem sample_line_no_match :
    url_regex_find sampleLine = none
    ∧ (runSched (List.replicate 7 true) (initReaders [sampleLine] [])).shared.url =
        none := by
  refine ⟨?_, ?_⟩ <;> decide

/-- C9 (amended): with the actual fixed tunnel domain, the line
`2024 INF tunnel connected https://foo-bar.trycloudflare.com` matches
the pattern with match `https://foo-bar.trycloudflare.com`, and a reader
task processing it stores that URL as the discovered endpoint and emits
exactly one connected event. -/
theorem sample_line_match_amended :
    url_regex_find sampleLineReal = some ("https://foo-bar.trycloudflare.com")
    ∧ (runSched (List.replicate 7 true) (initReaders [sampleLineReal] [])).shared.url =
        some ("https://foo-bar.trycloudflare.com")
    ∧ connectedCount (runSched (List.replicate 7 true)
        (initReaders [sampleLineReal] [])) = 1 := by
  refine ⟨?_, ?_, ?_⟩ <;> decide

/-! ## Teardown order -/

/-- A server start performs no kill calls, whatever the state and the
environment. -/
theorem killKinds_start_server (env : Env) (s : AppState) :
    killKinds (start_server_internal env s).2.2 = [] := by
  cases hs : s.server_process <;> cases hp : env.is_production <;>
    cases hsp : env.server_spawn <;> cases hc : s.sidecar_process <;>
    cases hcs : env.sidecar_spawn <;>
    simp [start_server_internal, start_sidecar_internal, killKinds, hs, hp,
      hsp, hc, hcs]

/-- A server stop never kills the tunnel: its kill calls concern only
the server and the sidecar. -/
theorem killKinds_stop_server_no_tunnel (s : AppState) :
    WorkerKind.tunnel ∉ killKinds (stop_server_internal s).2 := by
  cases hs : s.server_process <;> cases hc : s.sidecar_process <;>
    simp [stop_server_internal, stop_sidecar_internal, killKinds, hs, hc]

/-- C6 counterexample: a restart — one of the claimed full-teardown
triggers — of the server in the state where all three workers are live
performs its kill calls in the order Primary, Auxiliary, with no Tunnel
kill at all, and its very first recorded action is the slot clear (the
take), before the descendant termination and the kill rather than after
the wait.  So neither the claimed kill order Tunnel, Primary, Auxiliary
nor the claimed position of the slot clear holds. -/
theorem restart_kill_order_counterexample :
    killKinds (restart_server envProd sFull).2.2 =
      [WorkerKind.server, WorkerKind.sidecar]
    ∧ killKinds (restart_server envProd sFull).2.2 ≠
        [WorkerKind.tunnel, WorkerKind.server, WorkerKind.sidecar]
    ∧ (restart_server envProd sFull).2.2.head? =
        some (Effect.clearSlot WorkerKind.server)
    ∧ sFull.tunnel_process = some 22 := by
  refine ⟨?_, ?_, ?_, ?_⟩ <;> decide

/-- C6 (amended): each individual stop empties the slot first (the take
under the slot's lock), then terminates descendants, kills the direct
child and waits for its exit, in that order; a server stop then performs
the same sequence for the sidecar; and no server stop or restart ever
kills the tunnel — the combined teardown paths present in the code kill
in the order Primary, Auxiliary, while a tunnel stop kills only the
Tunnel; no path kills in the order Tunnel, Primary, Auxiliary. -/
theorem stop_order_amended (env : Env) (s : AppState) :
    (∀ p, s.server_process = some p →
      (stop_server_internal s).2 =
        [Effect.clearSlot WorkerKind.server,
         Effect.killDescendants WorkerKind.server p,
         Effect.kill WorkerKind.server p,
         Effect.waitExit WorkerKind.server p] ++
        (stop_sidecar_internal { s with server_process := none }).2)
    ∧ (∀ p, s.tunnel_process = some p →
      stop_tunnel_internal s =
        ({ s with tunnel_process := none, tunnel_url := none },
         [Effect.clearSlot WorkerKind.tunnel,
          Effect.killDescendants WorkerKind.tunnel p,
          Effect.kill WorkerKind.tunnel p,
          Effect.waitExit WorkerKind.tunnel p]))
    ∧ (∀ p, s.sidecar_process = some p →
      stop_sidecar_internal s =
        ({ s with sidecar_process := none },
         [Effect.clearSlot WorkerKind.sidecar,
          Effect.killDescendants WorkerKind.sidecar p,
          Effect.kill WorkerKind.sidecar p,
          Effect.waitExit WorkerKind.sidecar p]))
    ∧ WorkerKind.tunnel ∉ killKinds (restart_server env s).2.2 := by
  refine ⟨?_, ?_, ?_, ?_⟩
  · intro p hp
    simp [stop_server_internal, stop_sidecar_internal, hp]
  · intro p hp
    simp [stop_tunnel_internal, hp]
  · intro p hp
    simp [stop_sidecar_internal, hp]
  · have h2 := killKinds_start_server env (stop_server_internal s).1
    have h3 : killKinds (restart_server env s).2.2 =
        killKinds (stop_server_internal s).2 ++
          killKinds (start_server_internal env (stop_server_internal s).1).2.2 := by
      simp only [restart_server, killKinds]
      exact List.filterMap_append _ _ _
    rw [h3, h2, List.append_nil]
    exact killKinds_stop_server_no_tunnel s

/-- Witness for C6 (amended) at the all-live state. -/
theorem stop_order_amended_witness :
    (stop_server_internal sFull).2 =
      [Effect.clearSlot WorkerKind.server,
       Effect.killDescendants WorkerKind.server 11,
       Effect.kill WorkerKind.server 11,
       Effect.waitExit WorkerKind.server 11] ++
      (stop_sidecar_internal { sFull with server_process := none }).2
    ∧ stop_tunnel_internal sFull =
        ({ sFull with tunnel_process := none, tunnel_url := none },
         [Effect.clearSlot WorkerKind.tunnel,
          Effect.killDescendants WorkerKind.tunnel 22,
          Effect.kill WorkerKind.tunnel 22,
          Effect.waitExit WorkerKind.tunnel 22])
    ∧ stop_sidecar_internal sFull =
        ({ sFull with sidecar_process := none },
         [Effect.clearSlot WorkerKind.sidecar,
          Effect.killDescendants WorkerKind.sidecar 33,
          Effect.kill WorkerKind.sidecar 33,
          Effect.waitExit WorkerKind.sidecar 33])
    ∧ WorkerKind.tunnel ∉ killKinds (restart_server envProd sFull).2.2 :=
  ⟨(stop_order_amended envProd sFull).1 11 rfl,
   (stop_order_amended envProd sFull).2.1 22 rfl,
   (stop_order_amended envProd sFull).2.2.1 33 rfl,
   (stop_order_amended envProd sFull).2.2.2⟩

/-! ## The startup sequence gates the tunnel -/

/-- The health loop's effect trace never satisfies a predicate that
rejects every probe and every sleep effect. -/
theorem healthGo_any_false (probe : Nat → Bool) (delay : Nat)
    (pred : Effect → Bool)
    (hpa : ∀ i, pred (Effect.probeAttempt i) = false)
    (hsl : pred (Effect.sleep delay) = false) :
    ∀ (r a : Nat), ((healthGo probe delay a r).2.any pred) = false
  | 0, a => by simp [healthGo]
  | 1, a => by by_cases hp : probe a <;> simp [healthGo, hp, hpa]
  | r + 2, a => by
    by_cases hp : probe a
    · simp [healthGo, hp, hpa]
    · have ih := healthGo_any_false probe delay pred hpa hsl (r + 1) (a + 1)
      simp [healthGo, hp, hpa, hsl, ih]

/-- The health check never attempts a tunnel start. -/
theorem tunnelAttempted_health (probe : Nat → Bool) (maxA delay : Nat) :
    tunnelAttempted (wait_for_server_health probe maxA delay).2 = false := by
  simp only [wait_for_server_health, tunnelAttempted]
  exact healthGo_any_false probe delay _ (fun i => rfl) rfl maxA 1

/-- Every effect in the health loop's trace is a probe or a sleep. -/
theorem healthGo_trace_shape (probe : Nat → Bool) (delay : Nat) :
    ∀ (r a : Nat), ∀ x ∈ (healthGo probe delay a r).2,
      (∃ i, x = Effect.probeAttempt i) ∨ x = Effect.sleep delay
  | 0, a, x, hx => by simp [healthGo] at hx
  | 1, a, x, hx => by
    by_cases hp : probe a <;> simp [healthGo, hp] at hx <;>
      exact Or.inl ⟨a, hx⟩
  | r + 2, a, x, hx => by
    by_cases hp : probe a
    · simp [healthGo, hp] at hx
      exact Or.inl ⟨a, hx⟩
    · simp [healthGo, hp] at hx
      rcases hx with hx | hx | hx
      · exact Or.inl ⟨a, hx⟩
      · exact Or.inr hx
      · exact healthGo_trace_shape probe delay (r + 1) (a + 1) x hx

/-- Tunnel-attempt detection distributes over trace concatenation. -/
theorem tunnelAttempted_append (a b : List Effect) :
    tunnelAttempted (a ++ b) = (tunnelAttempted a || tunnelAttempted b) :=
  List.any_append

/-- A server start never attempts a tunnel start. -/
theorem tunnelAttempted_start_server (env : Env) (s : AppState) :
    tunnelAttempted (start_server_internal env s).2.2 = false := by
  cases hs : s.server_process <;> cases hp : env.is_production <;>
    cases hsp : env.server_spawn <;> cases hc : s.sidecar_process <;>
    cases hcs : env.sidecar_spawn <;>
    simp [start_server_internal, start_sidecar_internal, tunnelAttempted,
      hs, hp, hsp, hc, hcs]

/-- C4: in the initialization sequence the tunnel stage is gated on the
earlier stages.  When the internal server start fails, the sequence
stops before the health check: no probe occurs, no tunnel start is
attempted — neither a cloudflared spawn nor a `tunnel-status starting`
emit — and the failure is reported as a `server-status error:` status
event.  When the server stage does not fail (an external server is used
or the start returns success) but the health wait returns false, no
tunnel start is attempted and the condition is reported as the status
event `tunnel-status error: Server not ready`; the sequence still
returns normally — a trace and a state — rather than aborting. -/
theorem tunnel_gated_on_server_and_health (env : Env) (s : AppState) :
    (∀ e, env.external_server = false → s.server_process = none →
      env.server_spawn = Except.error e →
      healthProbed (initSequence env s).2 = false
      ∧ tunnelAttempted (initSequence env s).2 = false
      ∧ Effect.emit ("server-status") (("error: ") ++ e) ∈ (initSequence env s).2)
    ∧ ((env.external_server = true ∨ (start_server_internal env s).1 = Except.ok ()) →
      (wait_for_server_health env.health 10 500).1 = false →
      tunnelAttempted (initSequence env s).2 = false
      ∧ Effect.emit ("tunnel-status") ("error: Server not ready") ∈ (initSequence env s).2) := by
  constructor
  · intro e hext hs hsp
    cases hprod : env.is_production <;> cases hc : s.sidecar_process <;>
      cases hcs : env.sidecar_spawn <;>
      simp [initSequence, start_server_internal, start_sidecar_internal,
        healthProbed, tunnelAttempted, hext, hs, hsp, hprod, hc, hcs]
  · intro hsrv hhc
    have hshape : ∀ x ∈ (wait_for_server_health env.health 10 500).2,
        (∃ i, x = Effect.probeAttempt i) ∨ x = Effect.sleep 500 :=
      fun x hx => healthGo_trace_shape env.health 500 10 1 x hx
    cases hext : env.external_server with
    | true =>
      cases hprod : env.is_production <;>
        simp [initSequence, initAfterServer, tunnelAttempted_append,
          tunnelAttempted_health, hext, hhc, hprod, tunnelAttempted] <;>
        (intro x hx; rcases hshape x hx with ⟨i, hi⟩ | hi <;> subst hi <;> rfl)
    | false =>
      have hok : (start_server_internal env s).1 = Except.ok () := by
        rcases hsrv with h | h
        · rw [hext] at h; exact absurd h (by simp)
        · exact h
      cases hs : s.server_process with
      | some p =>
        cases hprod : env.is_production <;>
          simp [initSequence, initAfterServer, start_server_internal,
            tunnelAttempted_append, tunnelAttempted_health, hext, hhc, hprod,
            hs, tunnelAttempted] <;>
          (intro x hx; rcases hshape x hx with ⟨i, hi⟩ | hi <;> subst hi <;> rfl)
      | none =>
        cases hsp : env.server_spawn with
        | error e =>
          rw [start_server_internal] at hok
          simp [hs, hsp] at hok
        | ok pid =>
          cases hprod : env.is_production <;> cases hc : s.sidecar_process <;>
            cases hcs : env.sidecar_spawn <;>
            simp [initSequence, initAfterServer, start_server_internal,
              start_sidecar_internal, tunnelAttempted_append,
              tunnelAttempted_health, hext, hhc, hprod, hs, hsp, hc, hcs,
              tunnelAttempted] <;>
            (intro x hx; rcases hshape x hx with ⟨i, hi⟩ | hi <;> subst hi <;> rfl)

/-- Witness for C4: part one at the environment whose server start
fails, part two at the external-server environment whose probes all
fail, both from the empty state. -/
theorem tunnel_gated_witness :
    (healthProbed (initSequence envFailServer initialAppState).2 = false
      ∧ tunnelAttempted (initSequence envFailServer initialAppState).2 = false
      ∧ Effect.emit ("server-status")
          (("error: ") ++ ("Could not find project root directory")) ∈
          (initSequence envFailServer initialAppState).2)
    ∧ (tunnelAttempted (initSequence envNoHealth initialAppState).2 = false
      ∧ Effect.emit ("tunnel-status") ("error: Server not ready") ∈
          (initSequence envNoHealth initialAppState).2) :=
  ⟨(tunnel_gated_on_server_and_health envFailServer initialAppState).1
      ("Could not find project root directory") rfl rfl rfl,
   (tunnel_gated_on_server_and_health envNoHealth initialAppState).2
      (Or.inl rfl) (by decide)⟩

end TTunnel
